import Mathlib

/-!
Shallow embedding of the condition-monitoring core of the
Daily-Commute-Optimizer repository
(`src/commute_optimizer/services/condition_monitoring.py`), together with
theorems checking the natural-language specification against it.

Modelling conventions:
* Python floats are modelled as rationals (`ℚ`); the special value
  `float('inf')` produced by the percentage comparison at `old == 0` is
  modelled by a dedicated `Magnitude` type with an `inf` constructor.
* Python dicts are modelled as association lists (first binding wins on
  lookup, assignment overwrites in place, as with insertion-ordered dicts).
* `datetime.now()` is modelled by an explicit `now : ℕ` tick parameter.
* Exceptions are modelled explicitly: the Provider call returns
  `Except Unit Snapshot`, callbacks return `Except String Unit` (an
  `.error` result is an exception that the surrounding loop catches and
  logs), and `float()` conversion of a non-numeric value is the `none`
  case of `Value.toFloat?`, threaded through `DetectResult.raised`.
-/

namespace CommuteMonitor

/-- The `ConditionType` enum (condition_monitoring.py lines 16-21). -/
inductive ConditionType where
  | TRAFFIC
  | TRANSIT
  | WEATHER
  | PARKING
deriving DecidableEq, Repr

/-- The `.value` of the `str`-valued enum member. -/
def ConditionType.value : ConditionType → String
  | .TRAFFIC => "traffic"
  | .TRANSIT => "transit"
  | .WEATHER => "weather"
  | .PARKING => "parking"

/-- The `ChangeSignificance` enum (lines 24-29). -/
inductive ChangeSignificance where
  | MINOR
  | MODERATE
  | MAJOR
  | CRITICAL
deriving DecidableEq, Repr

/-- The `ConditionThreshold` dataclass (lines 32-41). -/
structure ConditionThreshold where
  condition_type : ConditionType
  metric : String
  minor_threshold : ℚ
  moderate_threshold : ℚ
  major_threshold : ℚ
  critical_threshold : ℚ
  comparison_type : String := "absolute"
deriving DecidableEq, Repr

/-- A metric value as stored in a snapshot dict: numeric or categorical
string (the `Any`-typed dict values produced by `asdict` on the data
dataclasses). -/
inductive Value where
  | num (q : ℚ)
  | str (s : String)
deriving DecidableEq, Repr

/-- Python `float(v)`: succeeds on numbers; a non-numeric value raises, modelled
as `none` (snapshot metrics routed to absolute/percentage thresholds are
numeric in the repository). -/
def Value.toFloat? : Value → Option ℚ
  | .num q => some q
  | .str _ => none

/-- A change magnitude: a finite Python float, or `float('inf')` as
produced by the percentage mode at `old == 0, new != 0`. -/
inductive Magnitude where
  | fin (q : ℚ)
  | inf
deriving DecidableEq, Repr

/-- Python `magnitude >= threshold` where `magnitude` may be infinite and
the threshold is a finite float. -/
def Magnitude.ge : Magnitude → ℚ → Bool
  | .inf, _ => true
  | .fin m, t => t ≤ m

/-- Python `change_magnitude > 0`. -/
def Magnitude.pos : Magnitude → Bool
  | .inf => true
  | .fin m => 0 < m

/-- Python `abs` on a float, written so that it evaluates by kernel
reduction (Mathlib's `|·|` on `ℚ` goes through the lattice structure). -/
def qabs (q : ℚ) : ℚ := if q < 0 then -q else q

/-- Method `ConditionMonitoringService._get_category_values` (lines 681-733):
the fixed per-(conditionType, metric) name→ordinal tables. -/
def get_category_values : ConditionType → String → List (String × Int)
  | .TRAFFIC, "congestion_level" =>
      [("light", 1), ("moderate", 2), ("heavy", 3), ("severe", 4)]
  | .TRANSIT, "service_status" =>
      [("normal", 1), ("minor_delays", 2), ("delays", 3), ("major_delays", 4),
       ("disrupted", 5), ("suspended", 6), ("cancelled", 7)]
  | .WEATHER, "condition" =>
      [("clear", 1), ("cloudy", 2), ("light_rain", 3), ("rain", 4),
       ("heavy_rain", 5), ("snow", 6), ("heavy_snow", 7), ("fog", 8),
       ("storm", 9), ("ice", 10)]
  | .PARKING, "availability" =>
      [("abundant", 1), ("moderate", 2), ("limited", 3), ("scarce", 4)]
  | _, _ => []

/-- Python `category_values.get(str(v), 0)`.  `str` of a number is its decimal
rendering, which never coincides with a category name, so numeric values
fall through to the default ordinal `0`. -/
def categoryLookup (table : List (String × Int)) : Value → Int
  | .str s => (table.lookup s).getD 0
  | .num _ => 0

/-- Method `ConditionMonitoringService._calculate_change_significance`
(lines 631-679).  Returns `none` when a `float()` conversion raises. -/
def calculate_change_significance (t : ConditionThreshold)
    (old_value new_value : Value) : Option (Magnitude × ChangeSignificance) :=
  let mag? : Option Magnitude :=
    if t.comparison_type = "absolute" then
      match old_value.toFloat?, new_value.toFloat? with
      | some o, some n => some (.fin (qabs (n - o)))
      | _, _ => none
    else if t.comparison_type = "percentage" then
      match old_value.toFloat?, new_value.toFloat? with
      | some o, some n =>
          if o = 0 then some (if n ≠ 0 then .inf else .fin 0)
          else some (.fin (qabs ((n - o) / o * 100)))
      | _, _ => none
    else if t.comparison_type = "categorical" then
      let category_values := get_category_values t.condition_type t.metric
      let old_numeric := categoryLookup category_values old_value
      let new_numeric := categoryLookup category_values new_value
      some (.fin ((new_numeric - old_numeric).natAbs : ℚ))
    else
      some (.fin 0)
  mag?.map fun change_magnitude =>
    let significance :=
      if change_magnitude.ge t.critical_threshold then ChangeSignificance.CRITICAL
      else if change_magnitude.ge t.major_threshold then ChangeSignificance.MAJOR
      else if change_magnitude.ge t.moderate_threshold then ChangeSignificance.MODERATE
      else if change_magnitude.ge t.minor_threshold then ChangeSignificance.MODERATE
      else ChangeSignificance.MINOR
    (change_magnitude, significance)

/-! Spec-side classifier, written from the specification's own words
(§4.3), used to check claim C1 by comparison with the source-side
`calculate_change_significance`. -/

/-- Modelled from the spec (§4.3), magnitude only: `absolute` is
`|new - old|`; `percentage` is `|new - old| / |old| * 100` with the
`old == 0` special case; `categorical` is `|ordinal(new) - ordinal(old)|`
over the fixed ordinal tables, absent names having ordinal `0`. -/
def specMagnitude (t : ConditionThreshold) (old_value new_value : Value) :
    Option Magnitude :=
  if t.comparison_type = "absolute" then
    match old_value.toFloat?, new_value.toFloat? with
    | some o, some n => some (.fin |n - o|)
    | _, _ => none
  else if t.comparison_type = "percentage" then
    match old_value.toFloat?, new_value.toFloat? with
    | some o, some n =>
        if o = 0 then some (if n = 0 then .fin 0 else .inf)
        else some (.fin (|n - o| / |o| * 100))
    | _, _ => none
  else
    let ordinal := fun v =>
      categoryLookup (get_category_values t.condition_type t.metric) v
    some (.fin |(ordinal new_value : ℚ) - (ordinal old_value : ℚ)|)

/-- Modelled from the spec (§4.3), significance ladder evaluated top-down:
`critical` if `magnitude ≥ criticalThreshold`, else `major` if
`≥ majorThreshold`, else `moderate` if `≥ moderateThreshold` or
`≥ minorThreshold`, else `MINOR`. -/
def specSignificance (t : ConditionThreshold) (m : Magnitude) :
    ChangeSignificance :=
  if m.ge t.critical_threshold then .CRITICAL
  else if m.ge t.major_threshold then .MAJOR
  else if m.ge t.moderate_threshold || m.ge t.minor_threshold then .MODERATE
  else .MINOR

/-- Association-list lookup with decidable key equality (Python dict
read: first — unique — binding wins). -/
def alookup {α : Type} [DecidableEq α] {β : Type} (k : α) :
    List (α × β) → Option β
  | [] => none
  | (k₂, v) :: rest => if k₂ = k then some v else alookup k rest

/-- Association-list assignment (`d[k] = v`): overwrites an existing
binding in place, otherwise appends (insertion-ordered dict). -/
def assocSet {α : Type} [DecidableEq α] {β : Type} (k : α) (v : β) :
    List (α × β) → List (α × β)
  | [] => [(k, v)]
  | (k₂, v₂) :: rest =>
      if k₂ = k then (k, v) :: rest else (k₂, v₂) :: assocSet k v rest

/-- The `Location` model (models.py lines 18-23); coordinates as rationals. -/
structure Location where
  latitude : ℚ
  longitude : ℚ
  address : String
  name : Option String := none
deriving DecidableEq, Repr

/-- A condition snapshot: the metric-name → value dict produced by
`asdict` on the collected data (condition_monitoring.py lines 528-564). -/
abbrev Snapshot := List (String × Value)

/-- The `ConditionChange` dataclass (lines 44-55). -/
structure ConditionChange where
  condition_type : ConditionType
  metric : String
  old_value : Value
  new_value : Value
  change_magnitude : Magnitude
  significance : ChangeSignificance
  timestamp : ℕ
  location_key : String
  description : String
deriving DecidableEq, Repr

/-- The `MonitoringTarget` dataclass (lines 58-66); `baseline_data` is the
`Optional[Dict[str, Any]]` keyed by `condition_type.value`. -/
structure MonitoringTarget where
  target_id : String
  origin : Location
  destination : Location
  monitoring_conditions : List ConditionType
  last_checked : Option ℕ := none
  baseline_data : Option (List (String × Snapshot)) := none
deriving DecidableEq, Repr

/-- The default threshold table built by the service's private
threshold initialiser (lines 105-205). -/
def default_thresholds : List ConditionThreshold :=
  [⟨.TRAFFIC, "delay_minutes", 5, 10, 20, 30, "absolute"⟩,
   ⟨.TRAFFIC, "average_speed_kmh", 10, 20, 30, 40, "percentage"⟩,
   ⟨.TRAFFIC, "congestion_level", 1, 2, 3, 4, "categorical"⟩,
   ⟨.TRANSIT, "delay_minutes", 3, 8, 15, 25, "absolute"⟩,
   ⟨.TRANSIT, "service_status", 1, 2, 3, 4, "categorical"⟩,
   ⟨.WEATHER, "visibility_km", 2, 5, 8, 10, "absolute"⟩,
   ⟨.WEATHER, "precipitation_probability", 20, 40, 60, 80, "absolute"⟩,
   ⟨.WEATHER, "condition", 1, 2, 3, 4, "categorical"⟩,
   ⟨.PARKING, "availability", 1, 2, 3, 4, "categorical"⟩,
   ⟨.PARKING, "average_cost_per_hour", 1, 3, 5, 8, "absolute"⟩]

/-- Python `str.title()` on an underscore-free, space-separated phrase:
capitalise each word's first letter, lowercase the rest. -/
def titleWord (w : String) : String :=
  match w.data with
  | [] => ""
  | c :: cs => String.mk (c.toUpper :: cs.map Char.toLower)

/-- Python `.title()` applied after `.replace('_', ' ')` (the only way the
source uses it), so words are exactly the space-separated chunks. -/
def pyTitle (s : String) : String :=
  String.intercalate " " ((s.splitOn " ").map titleWord)

/-- Rendering of a metric value inside an f-string; decimal rendering of
Python floats is abstracted to `ℚ`'s rendering. -/
def Value.render : Value → String
  | .num q => toString q
  | .str s => s

/-- Method `_generate_change_description` (lines 735-769). -/
def generate_change_description (condition_type : ConditionType)
    (metric : String) (old_value new_value : Value)
    (_significance : ChangeSignificance) : String :=
  let condition_name := pyTitle ((condition_type.value).replace "_" " ")
  let metric_name := pyTitle (metric.replace "_" " ")
  match old_value, new_value with
  | .num o, .num n =>
      if n > o then
        condition_name ++ " " ++ metric_name ++ " increased from " ++
          toString o ++ " to " ++ toString n ++ " (change: " ++
          toString (n - o) ++ ")"
      else
        condition_name ++ " " ++ metric_name ++ " decreased from " ++
          toString o ++ " to " ++ toString n ++ " (change: " ++
          toString (o - n) ++ ")"
  | _, _ =>
      condition_name ++ " " ++ metric_name ++ " changed from " ++
        old_value.render ++ " to " ++ new_value.render

/-- Method `_generate_location_key` (lines 771-773); the `%.3f` fixed-point
formatting of the float coordinates is abstracted to `ℚ`'s rendering. -/
def generate_location_key (origin destination : Location) : String :=
  toString origin.latitude ++ "," ++ toString origin.longitude ++ "-" ++
  toString destination.latitude ++ "," ++ toString destination.longitude

/-- Result of `_detect_changes`: the returned list, the entries appended
to `self._change_history` along the way, and whether the call raised
(a `float()` failure propagates out after the earlier history appends
have already happened; the returned `changes` list is then discarded,
modelled as `[]`). -/
structure DetectResult where
  changes : List ConditionChange
  history_appended : List ConditionChange
  raised : Bool
deriving DecidableEq, Repr

/-- The loop body of `_detect_changes` (lines 592-627) over the relevant
thresholds. -/
def detect_changes_go (condition_type : ConditionType)
    (baseline_data current_data : Snapshot) (location_key : String)
    (now : ℕ) : List ConditionThreshold → DetectResult
  | [] => ⟨[], [], false⟩
  | threshold :: rest =>
      match alookup threshold.metric baseline_data,
            alookup threshold.metric current_data with
      | some old_value, some new_value =>
          match calculate_change_significance threshold old_value new_value with
          | none => ⟨[], [], true⟩
          | some (change_magnitude, significance) =>
              if significance ≠ ChangeSignificance.MINOR ∨ change_magnitude.pos then
                let change : ConditionChange :=
                  { condition_type := condition_type
                    metric := threshold.metric
                    old_value := old_value
                    new_value := new_value
                    change_magnitude := change_magnitude
                    significance := significance
                    timestamp := now
                    location_key := location_key
                    description := generate_change_description condition_type
                      threshold.metric old_value new_value significance }
                let tail := detect_changes_go condition_type baseline_data
                  current_data location_key now rest
                ⟨if tail.raised then [] else change :: tail.changes,
                 change :: tail.history_appended, tail.raised⟩
              else
                detect_changes_go condition_type baseline_data current_data
                  location_key now rest
      | _, _ =>
          detect_changes_go condition_type baseline_data current_data
            location_key now rest

/-- Method `_detect_changes` (lines 566-629): filter the threshold table to the
condition type, then run the detection loop. -/
def detect_changes (thresholds : List ConditionThreshold)
    (condition_type : ConditionType) (baseline_data current_data : Snapshot)
    (location_key : String) (now : ℕ) : DetectResult :=
  detect_changes_go condition_type baseline_data current_data location_key now
    (thresholds.filter (fun t => decide (t.condition_type = condition_type)))

/-- Result of `_check_condition_for_target`: the (possibly updated)
target, the returned change list, and the history entries appended. -/
structure CheckResult where
  target : MonitoringTarget
  changes : List ConditionChange
  history_appended : List ConditionChange
deriving DecidableEq, Repr

/-- Method `_check_condition_for_target` (lines 480-526).  `provided` is the
outcome of the Provider call (`_collect_condition_data`); an `.error`
is the exception the method's `try`/`except` catches and logs. -/
def check_condition_for_target (thresholds : List ConditionThreshold)
    (target : MonitoringTarget) (condition_type : ConditionType)
    (provided : Except Unit Snapshot) (now : ℕ) : CheckResult :=
  let location_key := generate_location_key target.origin target.destination
  match provided with
  | .error _ => ⟨target, [], []⟩
  | .ok current_data =>
      let bd := target.baseline_data.getD []
      let baseline_key := condition_type.value
      match alookup baseline_key bd with
      | none =>
          ⟨{ target with
              baseline_data := some (assocSet baseline_key current_data bd) },
           [], []⟩
      | some baseline_data =>
          let d := detect_changes thresholds condition_type baseline_data
            current_data location_key now
          if d.raised then
            ⟨target, [], d.history_appended⟩
          else
            ⟨{ target with
                baseline_data := some (assocSet baseline_key current_data bd) },
             d.changes, d.history_appended⟩

/-- The loop of `_check_target_conditions` (lines 471-475), threading the
mutated target through the conditions. -/
def check_target_conditions_go (thresholds : List ConditionThreshold)
    (target : MonitoringTarget)
    (provider : ConditionType → Except Unit Snapshot) (now : ℕ) :
    List ConditionType → CheckResult
  | [] => ⟨target, [], []⟩
  | condition_type :: rest =>
      let r := check_condition_for_target thresholds target condition_type
        (provider condition_type) now
      let tail := check_target_conditions_go thresholds r.target provider now rest
      ⟨tail.target, r.changes ++ tail.changes,
       r.history_appended ++ tail.history_appended⟩

/-- Method `_check_target_conditions` (lines 461-478): check every monitored
condition, then set `last_checked`. -/
def check_target_conditions (thresholds : List ConditionThreshold)
    (target : MonitoringTarget)
    (provider : ConditionType → Except Unit Snapshot) (now : ℕ) : CheckResult :=
  let r := check_target_conditions_go thresholds target provider now
    target.monitoring_conditions
  ⟨{ r.target with last_checked := some now }, r.changes, r.history_appended⟩

/-- The per-target body of a scheduled tick of `_monitor_condition_type`
(lines 443-446): a target is checked only when it monitors this condition
type.  `provider` gives the Provider outcome per target id. -/
def tick_one (thresholds : List ConditionThreshold)
    (condition_type : ConditionType)
    (provider : String → Except Unit Snapshot) (now : ℕ)
    (target : MonitoringTarget) :
    MonitoringTarget × List ConditionChange × List ConditionChange :=
  if condition_type ∈ target.monitoring_conditions then
    let r := check_condition_for_target thresholds target condition_type
      (provider target.target_id) now
    (r.target, r.changes, r.history_appended)
  else (target, [], [])

/-- One scheduled tick body of `_monitor_condition_type` (lines 442-446):
check every target that monitors this condition type, leaving others
untouched. -/
def monitor_tick (thresholds : List ConditionThreshold)
    (condition_type : ConditionType)
    (provider : String → Except Unit Snapshot) (now : ℕ) :
    List MonitoringTarget →
      List MonitoringTarget × List ConditionChange × List ConditionChange
  | [] => ([], [], [])
  | target :: rest =>
      let head := tick_one thresholds condition_type provider now target
      let tail := monitor_tick thresholds condition_type provider now rest
      (head.1 :: tail.1, head.2.1 ++ tail.2.1, head.2.2 ++ tail.2.2)

/-- A registered callback: an identifier (registration handle) and its
behaviour on a batch of changes.  An `.error` result models the callback
raising an exception. -/
structure Callback where
  id : ℕ
  behavior : List ConditionChange → Except String Unit

/-- The `for callback in ...: try: callback(changes) except: log` loop
shared by `_notify_callbacks`, `_trigger_route_updates` and
`_trigger_recommendation_updates`.  Each trace entry records the callback
invoked, the batch it received, and its outcome; an `.error` outcome is
caught and logged, and the loop continues with the next callback. -/
def run_callback_loop : List Callback → List ConditionChange →
    List (ℕ × List ConditionChange × Except String Unit)
  | [], _ => []
  | cb :: rest, changes =>
      (cb.id, changes, cb.behavior changes) :: run_callback_loop rest changes

/-- Method `_notify_callbacks` (lines 775-793): early return on an empty batch,
otherwise the isolated callback loop. -/
def notify_callbacks (callbacks : List Callback)
    (changes : List ConditionChange) :
    List (ℕ × List ConditionChange × Except String Unit) :=
  if changes = [] then [] else run_callback_loop callbacks changes

/-- State of a `ConditionMonitoringService` relevant to the claims:
the target registry (dict values in insertion order, ids unique), the
registered update callbacks, the threshold table, and the change
history. -/
structure ServiceState where
  monitoring_targets : List MonitoringTarget
  update_callbacks : List Callback
  thresholds : List ConditionThreshold := default_thresholds
  change_history : List ConditionChange := []

/-- Python `target_id in self._monitoring_targets` / dict read, keyed by the
targets' own ids. -/
def targetsLookup (targets : List MonitoringTarget) (tid : String) :
    Option MonitoringTarget :=
  targets.find? (fun t => decide (t.target_id = tid))

/-- In-place mutation of one registry entry (Python mutates the target
object held by the dict). -/
def updateTarget (targets : List MonitoringTarget) (t : MonitoringTarget) :
    List MonitoringTarget :=
  targets.map (fun u => if u.target_id = t.target_id then t else u)

/-- Result of `check_conditions_now`: the new service state, the returned
change list, and the callback-invocation trace. -/
structure NowResult where
  state : ServiceState
  changes : List ConditionChange
  trace : List (ℕ × List ConditionChange × Except String Unit)

/-- The `for target in self._monitoring_targets.values()` loop of
`check_conditions_now` (lines 347-350). -/
def check_all_targets_go (thresholds : List ConditionThreshold)
    (provider : String → ConditionType → Except Unit Snapshot) (now : ℕ) :
    List MonitoringTarget →
      List MonitoringTarget × List ConditionChange × List ConditionChange
  | [] => ([], [], [])
  | target :: rest =>
      let r := check_target_conditions thresholds target
        (provider target.target_id) now
      let tail := check_all_targets_go thresholds provider now rest
      (r.target :: tail.1, r.changes ++ tail.2.1,
       r.history_appended ++ tail.2.2)

/-- The `else` (all-targets) branch of `check_conditions_now`. -/
def check_conditions_now_all (σ : ServiceState)
    (provider : String → ConditionType → Except Unit Snapshot) (now : ℕ) :
    NowResult :=
  let r := check_all_targets_go σ.thresholds provider now σ.monitoring_targets
  ⟨{ σ with monitoring_targets := r.1,
            change_history := σ.change_history ++ r.2.2 },
   r.2.1, notify_callbacks σ.update_callbacks r.2.1⟩

/-- Method `check_conditions_now` (lines 326-355).  `target_id` is the optional
argument; Python's `if target_id:` treats both `None` and the empty
string as falsy, falling through to the all-targets branch. -/
def check_conditions_now (σ : ServiceState) (target_id : Option String)
    (provider : String → ConditionType → Except Unit Snapshot) (now : ℕ) :
    NowResult :=
  match target_id with
  | some tid =>
      if tid = "" then check_conditions_now_all σ provider now
      else
        match targetsLookup σ.monitoring_targets tid with
        | some target =>
            let r := check_target_conditions σ.thresholds target
              (provider tid) now
            ⟨{ σ with monitoring_targets := updateTarget σ.monitoring_targets r.target,
                      change_history := σ.change_history ++ r.history_appended },
             r.changes, notify_callbacks σ.update_callbacks r.changes⟩
        | none => ⟨σ, [], []⟩
  | none => check_conditions_now_all σ provider now

/-- Attribute `self._max_history_size` (line 103). -/
def max_history_size : ℕ := 1000

/-- One compaction step of `_cleanup_change_history` (lines 802-805):
when the history exceeds the bound, keep the slice
`history[-max_history_size//2:]`, i.e. the most recent 500 entries. -/
def cleanup_change_history_step (history : List ConditionChange) :
    List ConditionChange :=
  if history.length > max_history_size then
    history.drop (history.length - max_history_size / 2)
  else history

/-- Attribute `RecommendationUpdateTrigger.update_triggers`: significance → bool
dict, read with `.get(sig, False)`. -/
abbrev TriggerPolicy := List (ChangeSignificance × Bool)

/-- Default policy (lines 833-838). -/
def default_update_triggers : TriggerPolicy :=
  [(.CRITICAL, true), (.MAJOR, true), (.MODERATE, true), (.MINOR, false)]

/-- Python `self.update_triggers.get(significance, False)` (line 901). -/
def policyGet (p : TriggerPolicy) (s : ChangeSignificance) : Bool :=
  (alookup s p).getD false

/-- State of a `RecommendationUpdateTrigger` relevant to the claims. -/
structure TriggerState where
  update_triggers : TriggerPolicy := default_update_triggers
  route_update_callbacks : List Callback := []
  recommendation_update_callbacks : List Callback := []

/-- Method `_trigger_route_updates` (lines 930-946). -/
def trigger_route_updates (st : TriggerState)
    (changes : List ConditionChange) :
    List (ℕ × List ConditionChange × Except String Unit) :=
  run_callback_loop st.route_update_callbacks changes

/-- Method `_trigger_recommendation_updates` (lines 948-964). -/
def trigger_recommendation_updates (st : TriggerState)
    (changes : List ConditionChange) :
    List (ℕ × List ConditionChange × Except String Unit) :=
  run_callback_loop st.recommendation_update_callbacks changes

/-- The categorisation loop of `_handle_condition_changes`
(lines 914-920): one pass that appends TRAFFIC/TRANSIT changes to the
route-affecting list and every change to the recommendation-affecting
list. -/
def categorize_changes : List ConditionChange →
    List ConditionChange × List ConditionChange
  | [] => ([], [])
  | change :: rest =>
      let tail := categorize_changes rest
      if change.condition_type = ConditionType.TRAFFIC ∨
         change.condition_type = ConditionType.TRANSIT then
        (change :: tail.1, change :: tail.2)
      else
        (tail.1, change :: tail.2)

/-- Method `_handle_condition_changes` (lines 888-928), returning the combined
callback-invocation trace (route updates first, then recommendation
updates). -/
def handle_condition_changes (st : TriggerState)
    (changes : List ConditionChange) :
    List (ℕ × List ConditionChange × Except String Unit) :=
  if changes = [] then []
  else
    let triggering := changes.filter
      (fun change => policyGet st.update_triggers change.significance)
    if triggering = [] then []
    else
      let categorized := categorize_changes triggering
      let route_affecting := categorized.1
      let recommendation_affecting := categorized.2
      (if route_affecting = [] then []
       else trigger_route_updates st route_affecting) ++
      (if recommendation_affecting = [] then []
       else trigger_recommendation_updates st recommendation_affecting)

/-! Shared concrete data for witnesses and counterexamples. -/

def sampleOrigin : Location := ⟨1, 2, "origin street", none⟩

def sampleDestination : Location := ⟨3, 4, "destination street", none⟩

/-- A freshly registered target monitoring traffic only (no baseline,
never checked). -/
def sampleTarget : MonitoringTarget :=
  ⟨"route_1", sampleOrigin, sampleDestination, [.TRAFFIC], none, none⟩

/-- An arbitrary concrete change record. -/
def sampleChange : ConditionChange :=
  ⟨.TRAFFIC, "delay_minutes", .num 0, .num 1, .fin 1, .MINOR, 0, "k", "d"⟩

/-- A target whose traffic baseline is already set (categorical metric
only, so comparisons evaluate by reduction). -/
def baselinedTarget : MonitoringTarget :=
  { sampleTarget with
      baseline_data := some [("traffic", [("congestion_level", .str "light")])] }

/-- A service with one registered target and no callbacks. -/
def sampleService : ServiceState :=
  ⟨[sampleTarget], [], default_thresholds, []⟩

/-- Modelled from the spec (§4.5 step 1): the changes whose significance
is enabled in the policy. -/
def specTriggering (st : TriggerState) (changes : List ConditionChange) :
    List ConditionChange :=
  changes.filter (fun c => policyGet st.update_triggers c.significance)

/-- Modelled from the spec (§4.5 step 2): the surviving changes whose
condition type is TRAFFIC or TRANSIT. -/
def specRouteAffecting (st : TriggerState)
    (changes : List ConditionChange) : List ConditionChange :=
  (specTriggering st changes).filter
    (fun c => decide (c.condition_type = ConditionType.TRAFFIC) ||
      decide (c.condition_type = ConditionType.TRANSIT))

/-- A callback that raises on every batch. -/
def raisingCallback : Callback := ⟨1, fun _ => .error "boom"⟩

/-- A callback that succeeds on every batch. -/
def okCallback : Callback := ⟨2, fun _ => .ok ()⟩

/-- The per-metric condition under which `_detect_changes` records a
change for a threshold's metric: both snapshots carry the metric and the
classified result has a non-`MINOR` significance or positive magnitude
(the amended C6's recording predicate, read off lines 595-606). -/
def qualifies (t : ConditionThreshold) (baseline current : Snapshot) : Bool :=
  match alookup t.metric baseline, alookup t.metric current with
  | some old_value, some new_value =>
      match calculate_change_significance t old_value new_value with
      | some (mag, sig) => decide (sig ≠ ChangeSignificance.MINOR) || mag.pos
      | none => false
  | _, _ => false

/-- A TRANSIT target with a stored baseline whose threshold-covered
metric `delay_minutes` is unchanged while an uncovered metric differs. -/
def c6Baseline : Snapshot := [("delay_minutes", .num 5), ("other", .num 0)]

def c6Current : Snapshot := [("delay_minutes", .num 5), ("other", .num 1)]

def c6Target : MonitoringTarget :=
  { sampleTarget with
      monitoring_conditions := [.TRANSIT],
      baseline_data := some [("transit", c6Baseline)] }

/-- Data for the C6 witness: a transit target whose categorical
`service_status` goes from `normal` to `delays`. -/
def c6qBaseline : Snapshot := [("service_status", .str "normal")]

def c6qCurrent : Snapshot := [("service_status", .str "delays")]

def c6qTarget : MonitoringTarget :=
  { sampleTarget with
      monitoring_conditions := [.TRANSIT],
      baseline_data := some [("transit", c6qBaseline)] }

/-! Helper lemmas. -/

theorem qabs_eq_abs (q : ℚ) : qabs q = |q| := by
  unfold qabs
  by_cases h : q < 0
  · simp [h, abs_of_neg h]
  · simp [h, abs_of_nonneg (le_of_not_lt h)]

theorem ladder_eq_specSignificance (t : ConditionThreshold) (m : Magnitude) :
    (if m.ge t.critical_threshold then ChangeSignificance.CRITICAL
     else if m.ge t.major_threshold then ChangeSignificance.MAJOR
     else if m.ge t.moderate_threshold then ChangeSignificance.MODERATE
     else if m.ge t.minor_threshold then ChangeSignificance.MODERATE
     else ChangeSignificance.MINOR) = specSignificance t m := by
  unfold specSignificance
  cases h1 : m.ge t.critical_threshold <;>
    cases h2 : m.ge t.major_threshold <;>
      cases h3 : m.ge t.moderate_threshold <;>
        cases h4 : m.ge t.minor_threshold <;>
          simp [h1, h2, h3, h4]

/-! ## Claim C1 -/

/-- C1: the change classifier is the pure function the spec defines:
magnitude is `|new - old|` in absolute mode; `|new - old| / |old| * 100`
in percentage mode with the infinite/zero special case at `old == 0`;
`|ordinal(new) - ordinal(old)|` over the fixed ordinal tables (absent
names → ordinal 0) in categorical mode; and significance is the
top-down ladder in which both the moderate and the minor tier yield
`MODERATE`. -/
theorem C1_classifier_matches_spec (t : ConditionThreshold)
    (old_value new_value : Value)
    (hmode : t.comparison_type = "absolute" ∨ t.comparison_type = "percentage" ∨
             t.comparison_type = "categorical") :
    calculate_change_significance t old_value new_value =
      (specMagnitude t old_value new_value).map
        (fun m => (m, specSignificance t m)) := by
  rcases hmode with h | h | h
  · simp only [calculate_change_significance, specMagnitude, h]
    cases old_value.toFloat? <;> cases new_value.toFloat? <;>
      simp [qabs_eq_abs, ladder_eq_specSignificance]
  · simp only [calculate_change_significance, specMagnitude, h]
    cases ho : old_value.toFloat? with
    | none => cases hn : new_value.toFloat? <;> simp
    | some o =>
      cases hn : new_value.toFloat? with
      | none => simp
      | some n =>
        by_cases ho0 : o = 0
        · by_cases hn0 : n = 0 <;>
            simp [ho0, hn0, ladder_eq_specSignificance]
        · have habs : qabs ((n - o) / o * 100) = |n - o| / |o| * 100 := by
            rw [qabs_eq_abs, abs_mul, abs_div]
            norm_num
          simp [ho0, habs, ladder_eq_specSignificance]
  · simp only [calculate_change_significance, specMagnitude, h]
    simp [ladder_eq_specSignificance, Int.cast_natAbs]

/-- Witness for C1 at the concrete traffic `delay_minutes` threshold of
the default table and the spec's worked example `old=10, new=42`. -/
theorem C1_classifier_matches_spec_witness :
    calculate_change_significance
        ⟨.TRAFFIC, "delay_minutes", 5, 10, 20, 30, "absolute"⟩
        (.num 10) (.num 42) =
      (specMagnitude ⟨.TRAFFIC, "delay_minutes", 5, 10, 20, 30, "absolute"⟩
          (.num 10) (.num 42)).map
        (fun m => (m,
          specSignificance
            ⟨.TRAFFIC, "delay_minutes", 5, 10, 20, 30, "absolute"⟩ m)) :=
  C1_classifier_matches_spec _ _ _ (Or.inl rfl)

theorem alookup_assocSet {α : Type} [DecidableEq α] {β : Type} (k : α)
    (v : β) (l : List (α × β)) : alookup k (assocSet k v l) = some v := by
  induction l with
  | nil => simp [assocSet, alookup]
  | cons p rest ih =>
      obtain ⟨k₂, v₂⟩ := p
      by_cases h : k₂ = k <;> simp [assocSet, alookup, h, ih]

/-! ## Claim C2 -/

/-- C2: while a target's baseline for a condition type is absent, a
successful poll produces no `ConditionChange` and appends nothing to the
history; it stores the new snapshot as that type's baseline and returns
the empty change list. -/
theorem C2_no_change_without_baseline (thresholds : List ConditionThreshold)
    (target : MonitoringTarget) (condition_type : ConditionType)
    (current_data : Snapshot) (now : ℕ)
    (hbase : alookup condition_type.value (target.baseline_data.getD []) = none) :
    (check_condition_for_target thresholds target condition_type
        (.ok current_data) now).changes = [] ∧
    (check_condition_for_target thresholds target condition_type
        (.ok current_data) now).history_appended = [] ∧
    alookup condition_type.value
        ((check_condition_for_target thresholds target condition_type
          (.ok current_data) now).target.baseline_data.getD [])
      = some current_data := by
  simp [check_condition_for_target, hbase, alookup_assocSet]

/-- Witness for C2: first traffic poll of a fresh target. -/
theorem C2_no_change_without_baseline_witness :
    (check_condition_for_target default_thresholds sampleTarget
        .TRAFFIC (.ok [("delay_minutes", .num 5)]) 0).changes = [] ∧
    (check_condition_for_target default_thresholds sampleTarget
        .TRAFFIC (.ok [("delay_minutes", .num 5)]) 0).history_appended = [] ∧
    alookup ConditionType.TRAFFIC.value
        ((check_condition_for_target default_thresholds sampleTarget
          .TRAFFIC (.ok [("delay_minutes", .num 5)]) 0).target.baseline_data.getD [])
      = some [("delay_minutes", .num 5)] :=
  C2_no_change_without_baseline _ _ _ _ _ rfl

/-! ## Claim C5 -/

/-- C5: after a successful comparison against an existing baseline for
(target, conditionType), the stored baseline is replaced with the newly
collected snapshot unconditionally — whether or not any change was
produced. -/
theorem C5_baseline_replaced_unconditionally
    (thresholds : List ConditionThreshold) (target : MonitoringTarget)
    (condition_type : ConditionType) (baseline current : Snapshot) (now : ℕ)
    (hbase : alookup condition_type.value (target.baseline_data.getD [])
      = some baseline)
    (hok : (detect_changes thresholds condition_type baseline current
        (generate_location_key target.origin target.destination) now).raised
      = false) :
    alookup condition_type.value
        ((check_condition_for_target thresholds target condition_type
          (.ok current) now).target.baseline_data.getD [])
      = some current := by
  simp [check_condition_for_target, hbase, hok, alookup_assocSet]

/-- Witness for C5: a second poll whose snapshot changes the congestion
level; the baseline is replaced (it is also replaced when nothing
changes, the hypothesis does not require any change). -/
theorem C5_baseline_replaced_unconditionally_witness :
    alookup ConditionType.TRAFFIC.value
        ((check_condition_for_target default_thresholds
          baselinedTarget .TRAFFIC
          (.ok [("congestion_level", .str "heavy")]) 3).target.baseline_data.getD [])
      = some [("congestion_level", .str "heavy")] :=
  C5_baseline_replaced_unconditionally _ _ _ _ _ _ rfl rfl

/-! ## Claim C7 -/

/-- C7: a Provider failure during the check of one (target, type) is
absorbed: the failing target yields no change, its state — baseline
included — is untouched, and nothing propagates (the check returns a
plain no-op result).  Checks of the other targets in the same round are
unaffected: the tick processes targets independently, and a target whose
provider outcome is unchanged produces an identical result. -/
theorem C7_provider_failure_isolated (thresholds : List ConditionThreshold)
    (condition_type : ConditionType) (now : ℕ)
    (targets : List MonitoringTarget)
    (provider provider2 : String → Except Unit Snapshot) (tid : String)
    (hfail : provider tid = .error ())
    (hagree : ∀ s, s ≠ tid → provider2 s = provider s) :
    (∀ target : MonitoringTarget, target.target_id = tid →
        check_condition_for_target thresholds target condition_type
          (provider target.target_id) now = ⟨target, [], []⟩) ∧
    ((monitor_tick thresholds condition_type provider now targets).1 =
        targets.map
          (fun t => (tick_one thresholds condition_type provider now t).1)) ∧
    (∀ target : MonitoringTarget, target.target_id ≠ tid →
        tick_one thresholds condition_type provider2 now target =
          tick_one thresholds condition_type provider now target) := by
  refine ⟨?_, ?_, ?_⟩
  · intro target htid
    rw [htid, hfail]
    rfl
  · induction targets with
    | nil => rfl
    | cons t rest ih => simp [monitor_tick, ih]
  · intro target htid
    unfold tick_one
    rw [hagree _ htid]

/-- Witness for C7: a provider that always fails leaves a baselined
target exactly as it was and emits nothing. -/
theorem C7_provider_failure_isolated_witness :
    check_condition_for_target default_thresholds baselinedTarget
        .TRAFFIC ((fun _ => .error ()) baselinedTarget.target_id) 0
      = ⟨baselinedTarget, [], []⟩ :=
  (C7_provider_failure_isolated default_thresholds .TRAFFIC 0 []
      (fun _ => .error ()) (fun _ => .error ()) "route_1" rfl
      (fun _ _ => rfl)).1 baselinedTarget rfl

/-! ## Claim C8 -/

/-- C8: the periodic history compaction, when the history is strictly
longer than `max_history_size` (1000), keeps exactly the most recent
`max_history_size / 2` (500) entries in their original order (the result
is a length-500 suffix), and leaves a history of at most
`max_history_size` entries unchanged. -/
theorem C8_history_compaction (history : List ConditionChange) :
    (history.length > max_history_size →
      cleanup_change_history_step history
          = history.drop (history.length - max_history_size / 2) ∧
      (cleanup_change_history_step history).length = max_history_size / 2 ∧
      cleanup_change_history_step history <:+ history) ∧
    (history.length ≤ max_history_size →
      cleanup_change_history_step history = history) := by
  constructor
  · intro h
    refine ⟨by simp [cleanup_change_history_step, h], ?_, ?_⟩
    · simp only [cleanup_change_history_step, h, if_pos, List.length_drop]
      unfold max_history_size at h ⊢
      omega
    · simp only [cleanup_change_history_step, h, if_pos]
      exact List.drop_suffix _ _
  · intro h
    have h2 : ¬ history.length > max_history_size := not_lt.mpr h
    simp [cleanup_change_history_step, h2]

/-- Witness for C8: 1001 entries compact to the most recent 500; 501
entries are left alone. -/
theorem C8_history_compaction_witness :
    cleanup_change_history_step (List.replicate 1001 sampleChange)
        = (List.replicate 1001 sampleChange).drop 501 ∧
    (cleanup_change_history_step (List.replicate 1001 sampleChange)).length
        = 500 ∧
    cleanup_change_history_step (List.replicate 501 sampleChange)
        = List.replicate 501 sampleChange := by
  have hl : (List.replicate 1001 sampleChange).length = 1001 :=
    List.length_replicate _ _
  have hl2 : (List.replicate 501 sampleChange).length = 501 :=
    List.length_replicate _ _
  have h1 := (C8_history_compaction (List.replicate 1001 sampleChange)).1
    (by rw [hl]; norm_num [max_history_size])
  have h2 := (C8_history_compaction (List.replicate 501 sampleChange)).2
    (by rw [hl2]; norm_num [max_history_size])
  refine ⟨?_, ?_, h2⟩
  · rw [h1.1, hl]
    norm_num [max_history_size]
  · rw [h1.2.1]
    norm_num [max_history_size]

/-! ## Claim C10 -/

/-- C10: `check_conditions_now` on a non-empty, unregistered target id
returns the empty list, invokes no callbacks, and leaves the whole
service state unchanged (and, being a total function of the state, does
not raise). -/
theorem C10_unknown_target_noop (σ : ServiceState) (tid : String)
    (provider : String → ConditionType → Except Unit Snapshot) (now : ℕ)
    (hne : tid ≠ "")
    (hmiss : targetsLookup σ.monitoring_targets tid = none) :
    check_conditions_now σ (some tid) provider now = ⟨σ, [], []⟩ := by
  simp [check_conditions_now, hne, hmiss]

/-- Witness for C10: checking an id that is not registered. -/
theorem C10_unknown_target_noop_witness :
    check_conditions_now sampleService (some "unknown_route")
        (fun _ _ => .ok []) 0 = ⟨sampleService, [], []⟩ :=
  C10_unknown_target_noop _ _ _ _ (by decide) rfl

/-! ## Claim C3 -/

theorem run_callback_loop_eq_map (cbs : List Callback)
    (changes : List ConditionChange) :
    run_callback_loop cbs changes =
      cbs.map (fun cb => (cb.id, changes, cb.behavior changes)) := by
  induction cbs <;> simp [run_callback_loop, *]

theorem categorize_changes_eq_filter (l : List ConditionChange) :
    categorize_changes l =
      (l.filter (fun c => decide (c.condition_type = ConditionType.TRAFFIC) ||
          decide (c.condition_type = ConditionType.TRANSIT)), l) := by
  induction l with
  | nil => rfl
  | cons c rest ih =>
      by_cases h1 : c.condition_type = ConditionType.TRAFFIC
      · simp [categorize_changes, ih, h1, List.filter_cons]
      · by_cases h2 : c.condition_type = ConditionType.TRANSIT
        · simp [categorize_changes, ih, h1, h2, List.filter_cons]
        · simp [categorize_changes, ih, h1, h2, List.filter_cons]

/-- C3: the dispatcher keeps exactly the policy-enabled changes (an
empty filtered result invokes no callbacks); every survivor is in the
recommendation-affecting list and TRAFFIC/TRANSIT survivors additionally
in the route-affecting list; when the route-affecting list is non-empty
every route callback is invoked with it, in registration order, before
any recommendation callback is invoked with the recommendation-affecting
list, again in registration order. -/
theorem C3_dispatcher_policy_split_order (st : TriggerState)
    (changes : List ConditionChange) :
    handle_condition_changes st changes =
      (if specRouteAffecting st changes = [] then []
       else st.route_update_callbacks.map (fun cb =>
         (cb.id, specRouteAffecting st changes,
          cb.behavior (specRouteAffecting st changes)))) ++
      (if specTriggering st changes = [] then []
       else st.recommendation_update_callbacks.map (fun cb =>
         (cb.id, specTriggering st changes,
          cb.behavior (specTriggering st changes)))) := by
  unfold handle_condition_changes specRouteAffecting specTriggering
  by_cases hc : changes = []
  · subst hc
    simp
  · rw [if_neg hc]
    by_cases ht : changes.filter
        (fun c => policyGet st.update_triggers c.significance) = []
    · rw [if_pos ht, ht]
      simp
    · rw [if_neg ht, categorize_changes_eq_filter]
      simp only [trigger_route_updates, trigger_recommendation_updates,
        run_callback_loop_eq_map]

/-! ## Claim C4 -/

theorem run_callback_loop_append (a b : List Callback)
    (changes : List ConditionChange) :
    run_callback_loop (a ++ b) changes =
      run_callback_loop a changes ++ run_callback_loop b changes := by
  induction a <;> simp [run_callback_loop, *]

/-- C4: callback dispatch is failure-isolated.  If the callback `cb`
raises on the batch, every callback registered after it is still invoked
with the same change list, and the loop still returns a plain trace (the
exception is caught inside the loop, so nothing propagates to the
Poller).  `notify_callbacks` is the service's dispatch loop; the
trigger's route/recommendation loops share `run_callback_loop`. -/
theorem C4_callback_failure_isolated (cbs₁ cbs₂ : List Callback)
    (cb : Callback) (changes : List ConditionChange) (e : String)
    (hraise : cb.behavior changes = .error e) (hne : changes ≠ []) :
    notify_callbacks (cbs₁ ++ cb :: cbs₂) changes =
      run_callback_loop cbs₁ changes ++
        (cb.id, changes, Except.error e) :: run_callback_loop cbs₂ changes ∧
    ∀ cb₂ ∈ cbs₂, (cb₂.id, changes, cb₂.behavior changes) ∈
      notify_callbacks (cbs₁ ++ cb :: cbs₂) changes := by
  have h1 : notify_callbacks (cbs₁ ++ cb :: cbs₂) changes =
      run_callback_loop cbs₁ changes ++
        (cb.id, changes, Except.error e) :: run_callback_loop cbs₂ changes := by
    simp [notify_callbacks, hne, run_callback_loop_append,
      run_callback_loop, hraise]
  refine ⟨h1, ?_⟩
  intro cb₂ hmem
  rw [h1]
  refine List.mem_append_right _ (List.mem_cons_of_mem _ ?_)
  rw [run_callback_loop_eq_map]
  exact List.mem_map_of_mem _ hmem

/-- Witness for C4: the callback registered after a raising one is still
invoked with the same batch. -/
theorem C4_callback_failure_isolated_witness :
    notify_callbacks [raisingCallback, okCallback] [sampleChange] =
      [(1, [sampleChange], Except.error "boom"),
       (2, [sampleChange], Except.ok ())] := by
  have h := (C4_callback_failure_isolated [] [okCallback] raisingCallback
    [sampleChange] "boom" rfl (by simp)).1
  simpa [run_callback_loop, raisingCallback, okCallback] using h

/-! ## Claim C9 -/

theorem check_condition_for_target_last_checked
    (thresholds : List ConditionThreshold) (target : MonitoringTarget)
    (condition_type : ConditionType) (provided : Except Unit Snapshot)
    (now : ℕ) :
    (check_condition_for_target thresholds target condition_type provided
        now).target.last_checked = target.last_checked := by
  unfold check_condition_for_target
  cases provided with
  | error e => rfl
  | ok current =>
      simp only
      cases h : alookup condition_type.value (target.baseline_data.getD []) with
      | none => simp [h]
      | some baseline =>
          simp only [h]
          split <;> rfl

/-- C9 counterexample: on a scheduled traffic tick the registered target
is checked (its baseline gets stored) at tick time `5`, yet its
last-checked timestamp is still `none` afterwards — the scheduled loop
never updates it. -/
theorem C9_counterexample :
    (monitor_tick default_thresholds .TRAFFIC
        (fun _ => .ok [("congestion_level", .str "light")]) 5 [sampleTarget]).1 =
      [{ sampleTarget with
          baseline_data :=
            some [("traffic", [("congestion_level", .str "light")])] }] ∧
    ((monitor_tick default_thresholds .TRAFFIC
        (fun _ => .ok [("congestion_level", .str "light")]) 5
        [sampleTarget]).1.map (fun t => t.last_checked)) = [none] := by
  constructor <;> rfl

/-- C9 amended: only the on-demand check path
(`check_conditions_now` → `_check_target_conditions`) updates a target's
last-checked timestamp after checking its conditions; the scheduled
per-type poll loop leaves `last_checked` unchanged. -/
theorem C9_last_checked_on_demand_only
    (thresholds : List ConditionThreshold) (target : MonitoringTarget)
    (provider : ConditionType → Except Unit Snapshot)
    (provider2 : String → Except Unit Snapshot)
    (condition_type : ConditionType) (now : ℕ) :
    (check_target_conditions thresholds target provider now).target.last_checked
        = some now ∧
    (tick_one thresholds condition_type provider2 now target).1.last_checked
        = target.last_checked := by
  constructor
  · simp [check_target_conditions]
  · unfold tick_one
    split
    · simp [check_condition_for_target_last_checked]
    · rfl

/-! ## Claim C6 -/

/-- C6 counterexample: the new snapshot differs from the baseline, the
metric `delay_minutes` is present in both and has a TRANSIT threshold
entry, yet the poll yields no `ConditionChange` at all (the code only
records a change when significance ≠ MINOR or magnitude > 0). -/
theorem C6_counterexample :
    c6Baseline ≠ c6Current ∧
    alookup "delay_minutes" c6Baseline = some (.num 5) ∧
    alookup "delay_minutes" c6Current = some (.num 5) ∧
    (⟨.TRANSIT, "delay_minutes", 3, 8, 15, 25, "absolute"⟩ : ConditionThreshold)
        ∈ default_thresholds ∧
    (check_condition_for_target default_thresholds c6Target
        .TRANSIT (.ok c6Current) 0).changes = [] := by
  refine ⟨?_, rfl, rfl, ?_, ?_⟩
  · simp [c6Baseline, c6Current]
  · simp [default_thresholds]
  · simp [check_condition_for_target, detect_changes, detect_changes_go,
      c6Target, c6Baseline, c6Current, default_thresholds,
      alookup, calculate_change_significance, Value.toFloat?, qabs,
      Magnitude.ge, Magnitude.pos, categoryLookup, get_category_values,
      ConditionType.value, sampleTarget, Option.getD]
    norm_num

theorem detect_changes_go_metric_mem (condition_type : ConditionType)
    (baseline current : Snapshot) (location_key : String) (now : ℕ)
    (ts : List ConditionThreshold) :
    ∀ ch ∈ (detect_changes_go condition_type baseline current location_key
        now ts).changes, ch.metric ∈ ts.map (fun t => t.metric) := by
  induction ts with
  | nil => simp [detect_changes_go]
  | cons t₀ rest ih =>
      intro ch hch
      unfold detect_changes_go at hch
      rcases h1 : alookup t₀.metric baseline with _ | ov <;> rw [h1] at hch
      · simp only [List.map_cons, List.mem_cons]
        exact Or.inr (ih ch hch)
      · rcases h2 : alookup t₀.metric current with _ | nv <;> rw [h2] at hch
        · simp only [List.map_cons, List.mem_cons]
          exact Or.inr (ih ch hch)
        · dsimp only at hch
          rcases h3 : calculate_change_significance t₀ ov nv with _ | ⟨mag, sig⟩ <;>
            rw [h3] at hch
          · simp at hch
          · dsimp only at hch
            by_cases h4 : sig ≠ ChangeSignificance.MINOR ∨ mag.pos
            · rw [if_pos h4] at hch
              simp only [List.map_cons, List.mem_cons]
              by_cases h5 : (detect_changes_go condition_type baseline current
                  location_key now rest).raised
              · simp [h5] at hch
              · simp only [h5, if_neg, Bool.false_eq_true, ite_false,
                  List.mem_cons] at hch
                rcases hch with hch | hch
                · subst hch
                  exact Or.inl rfl
                · exact Or.inr (ih ch hch)
            · rw [if_neg h4] at hch
              simp only [List.map_cons, List.mem_cons]
              exact Or.inr (ih ch hch)

theorem detect_filter_head_nil (condition_type : ConditionType)
    (baseline current : Snapshot) (location_key : String) (now : ℕ)
    (rest : List ConditionThreshold) (m : String)
    (hm : m ∉ rest.map (fun t => t.metric)) :
    (detect_changes_go condition_type baseline current location_key now
        rest).changes.filter (fun ch => decide (ch.metric = m)) = [] := by
  rw [List.filter_eq_nil_iff]
  intro ch hch
  simp only [decide_eq_true_eq]
  intro hEq
  exact hm (hEq ▸ detect_changes_go_metric_mem condition_type baseline
    current location_key now rest ch hch)

theorem detect_changes_go_count (condition_type : ConditionType)
    (baseline current : Snapshot) (location_key : String) (now : ℕ)
    (ts : List ConditionThreshold) :
    (ts.map (fun t => t.metric)).Nodup →
    (detect_changes_go condition_type baseline current location_key now
        ts).raised = false →
    ∀ t ∈ ts,
      ((detect_changes_go condition_type baseline current location_key now
          ts).changes.filter
          (fun ch => decide (ch.metric = t.metric))).length
        = if qualifies t baseline current then 1 else 0 := by
  induction ts with
  | nil => intro _ _ t ht; simp at ht
  | cons t₀ rest ih =>
      intro hnd hok t ht
      rw [List.map_cons, List.nodup_cons] at hnd
      obtain ⟨hnd0, hndr⟩ := hnd
      rcases h1 : alookup t₀.metric baseline with _ | ov
      · have heq : detect_changes_go condition_type baseline current
            location_key now (t₀ :: rest)
            = detect_changes_go condition_type baseline current location_key
              now rest := by
          simp only [detect_changes_go, h1]
        rw [heq] at hok ⊢
        rcases List.mem_cons.mp ht with rfl | ht₂
        · have hq : qualifies t baseline current = false := by
            unfold qualifies
            rw [h1]
          rw [hq, detect_filter_head_nil condition_type baseline current
            location_key now rest t.metric hnd0]
          simp
        · exact ih hndr hok t ht₂
      · rcases h2 : alookup t₀.metric current with _ | nv
        · have heq : detect_changes_go condition_type baseline current
              location_key now (t₀ :: rest)
              = detect_changes_go condition_type baseline current location_key
                now rest := by
            simp only [detect_changes_go, h1, h2]
          rw [heq] at hok ⊢
          rcases List.mem_cons.mp ht with rfl | ht₂
          · have hq : qualifies t baseline current = false := by
              unfold qualifies
              rw [h1, h2]
            rw [hq, detect_filter_head_nil condition_type baseline current
              location_key now rest t.metric hnd0]
            simp
          · exact ih hndr hok t ht₂
        · rcases h3 : calculate_change_significance t₀ ov nv with _ | ⟨mag, sig⟩
          · have heq : (detect_changes_go condition_type baseline current
                location_key now (t₀ :: rest)).raised = true := by
              simp only [detect_changes_go, h1, h2, h3]
            rw [heq] at hok
            cases hok
          · by_cases h4 : sig ≠ ChangeSignificance.MINOR ∨ mag.pos
            · have hraisedEq : (detect_changes_go condition_type baseline
                  current location_key now (t₀ :: rest)).raised
                  = (detect_changes_go condition_type baseline current
                    location_key now rest).raised := by
                simp only [detect_changes_go, h1, h2, h3, if_pos h4]
              have hokr : (detect_changes_go condition_type baseline current
                  location_key now rest).raised = false := by
                rw [← hraisedEq]
                exact hok
              have hchangesEq : (detect_changes_go condition_type baseline
                  current location_key now (t₀ :: rest)).changes
                  = { condition_type := condition_type, metric := t₀.metric,
                      old_value := ov, new_value := nv,
                      change_magnitude := mag, significance := sig,
                      timestamp := now, location_key := location_key,
                      description := generate_change_description
                        condition_type t₀.metric ov nv sig }
                    :: (detect_changes_go condition_type baseline current
                      location_key now rest).changes := by
                simp only [detect_changes_go, h1, h2, h3, if_pos h4, hokr,
                  Bool.false_eq_true, if_false]
              rw [hchangesEq]
              rcases List.mem_cons.mp ht with rfl | ht₂
              · have hq : qualifies t baseline current = true := by
                  unfold qualifies
                  rw [h1, h2]
                  dsimp only
                  rw [h3]
                  rcases h4 with h4 | h4
                  · simp [h4]
                  · simp [h4]
                rw [hq, List.filter_cons]
                simp only [decide_True, if_true]
                rw [detect_filter_head_nil condition_type baseline current
                  location_key now rest t.metric hnd0]
                simp
              · have hne : t.metric ≠ t₀.metric := by
                  intro hEq
                  exact hnd0 (hEq ▸ List.mem_map_of_mem (fun t => t.metric) ht₂)
                rw [List.filter_cons]
                have hdec : (decide (t₀.metric = t.metric)) = false := by
                  simp [Ne.symm hne]
                simp only [hdec, Bool.false_eq_true, if_false]
                exact ih hndr hokr t ht₂
            · have heq : detect_changes_go condition_type baseline current
                  location_key now (t₀ :: rest)
                  = detect_changes_go condition_type baseline current
                    location_key now rest := by
                simp only [detect_changes_go, h1, h2, h3, if_neg h4]
              rw [heq] at hok ⊢
              rcases List.mem_cons.mp ht with rfl | ht₂
              · have hq : qualifies t baseline current = false := by
                  unfold qualifies
                  rw [h1, h2]
                  dsimp only
                  rw [h3]
                  push_neg at h4
                  simp [h4.1, h4.2]
                rw [hq, detect_filter_head_nil condition_type baseline current
                  location_key now rest t.metric hnd0]
                simp
              · exact ih hndr hok t ht₂

/-- C6 amended: once a baseline exists for a (target, conditionType), a
subsequent successful poll yields exactly one `ConditionChange` for every
metric present in both the baseline and the new snapshot that has a
matching Threshold entry *whose classified result has significance other
than MINOR or positive magnitude* — and none for the remaining
threshold-covered metrics (threshold metrics per type assumed distinct,
as in the default table). -/
theorem C6_amended_one_change_per_qualifying_metric
    (thresholds : List ConditionThreshold) (target : MonitoringTarget)
    (condition_type : ConditionType) (baseline current : Snapshot) (now : ℕ)
    (hbase : alookup condition_type.value (target.baseline_data.getD [])
      = some baseline)
    (hnd : ((thresholds.filter
        (fun t => decide (t.condition_type = condition_type))).map
        (fun t => t.metric)).Nodup)
    (hok : (detect_changes thresholds condition_type baseline current
        (generate_location_key target.origin target.destination) now).raised
      = false) :
    ∀ t ∈ thresholds, t.condition_type = condition_type →
      (((check_condition_for_target thresholds target condition_type
          (.ok current) now).changes).filter
          (fun ch => decide (ch.metric = t.metric))).length
        = if qualifies t baseline current then 1 else 0 := by
  intro t ht hct
  have hchanges : (check_condition_for_target thresholds target
      condition_type (.ok current) now).changes
      = (detect_changes thresholds condition_type baseline current
          (generate_location_key target.origin target.destination)
          now).changes := by
    simp [check_condition_for_target, hbase, hok]
  rw [hchanges]
  exact detect_changes_go_count condition_type baseline current _ now _ hnd
    hok t (List.mem_filter.mpr ⟨ht, by simp [hct]⟩)

/-- Witness for the amended C6: exactly one change is produced for the
qualifying metric `service_status`. -/
theorem C6_amended_one_change_per_qualifying_metric_witness :
    ((check_condition_for_target default_thresholds c6qTarget
        .TRANSIT (.ok c6qCurrent) 0).changes.filter
        (fun ch => decide (ch.metric = "service_status"))).length = 1 := by
  have h := C6_amended_one_change_per_qualifying_metric
    default_thresholds c6qTarget .TRANSIT c6qBaseline c6qCurrent 0
    rfl (by decide) rfl
    ⟨.TRANSIT, "service_status", 1, 2, 3, 4, "categorical"⟩
    (by simp [default_thresholds]) rfl
  have hq : qualifies
      ⟨.TRANSIT, "service_status", 1, 2, 3, 4, "categorical"⟩
      c6qBaseline c6qCurrent = true := by rfl
  rw [hq] at h
  simpa using h

end CommuteMonitor
